import Mathlib

/-!
Verification of the AMSE configuration loader (`src/amseconfig.py`).

The Python module defines three dataclasses (`FirebaseConfig`, `DataConfig`,
`ModelConfig`) and a `Config` class whose constructor loads an optional
Firebase credential blob from the `FIREBASE_SERVICE_ACCOUNT_JSON` environment
variable, parses it as JSON, and constructs `FirebaseConfig(**config_dict)`
under a broad exception handler; `Config.to_dict` renders the aggregate as a
nested dictionary.

Embedding choices:
- The environment variable value is an explicit `Option String` argument
  (`none` = unset).
- `json.loads` is external library code, modelled as an explicit argument
  `parse : String → Except Unit JsonValue`; theorems quantify over its
  behaviour (success with a decoded value, or a decode failure).
- Python exceptions raised inside the `try` block are modelled as
  `Except PyExc`; the two `except` clauses of `_load_firebase_config` are the
  handler branches that turn them back into normal returns.
- `logging.warning` / `logging.error` calls are modelled as an explicit list
  of emitted `LogMsg` values.
- Python dataclasses perform no runtime type or value validation, so
  `FirebaseConfig` field values are arbitrary decoded JSON values; keyword
  expansion `FirebaseConfig(**d)` fails (TypeError) exactly when `d` has an
  unrecognized key or misses a required one, and on a non-mapping argument.
- Python dicts built by `json.loads` resolve duplicate keys last-wins, so
  lookup over the decoded field list takes the last binding.
-/

namespace AMSE

/-- Decoded JSON values, as produced by `json.loads`. Numbers are modelled as
rationals (covers Python ints and the exactly-representable floats used
here). -/
inductive JsonValue where
  | null : JsonValue
  | bool (b : Bool) : JsonValue
  | num (q : Rat) : JsonValue
  | str (s : String) : JsonValue
  | arr (elems : List JsonValue) : JsonValue
  | obj (fields : List (String × JsonValue)) : JsonValue

/-- The diagnostic log observations `_load_firebase_config` can emit. -/
inductive LogMsg where
  | warnNotFound : LogMsg
  | errorParse : LogMsg
  | errorLoad : LogMsg
deriving DecidableEq, Repr

/-- Python exceptions that can arise inside the `try` block of
`_load_firebase_config`: `json.JSONDecodeError` from `json.loads`, and
`TypeError` from keyword expansion / dataclass construction. -/
inductive PyExc where
  | jsonDecodeError : PyExc
  | typeError : PyExc
deriving DecidableEq, Repr

/-- Lookup in a decoded JSON object, with Python dict semantics: the last
binding of a duplicated key wins. -/
def jLookup (fields : List (String × JsonValue)) (k : String) : Option JsonValue :=
  (fields.reverse.find? (fun p => p.1 == k)).map (fun p => p.2)

/-- Default for `FirebaseConfig.auth_uri` (source line 23). -/
def defaultAuthUri : String := "https://accounts.google.com/o/oauth2/auth"

/-- Default for `FirebaseConfig.token_uri` (source line 24). -/
def defaultTokenUri : String := "https://oauth2.googleapis.com/token"

/-- Default for `FirebaseConfig.auth_provider_x509_cert_url` (source line 25). -/
def defaultAuthProviderCertUrl : String := "https://www.googleapis.com/oauth2/v1/certs"

/-- Default for `FirebaseConfig.client_x509_cert_url` (source line 26). -/
def defaultClientCertUrl : String := "https://www.googleapis.com/robot/v1/metadata/x509/..."

/-- The `FirebaseConfig` dataclass. Python dataclasses do not enforce the
`str` annotations at runtime, so each field holds whatever decoded JSON value
was supplied. -/
structure FirebaseConfig where
  project_id : JsonValue
  private_key_id : JsonValue
  private_key : JsonValue
  client_email : JsonValue
  client_id : JsonValue
  auth_uri : JsonValue := .str defaultAuthUri
  token_uri : JsonValue := .str defaultTokenUri
  auth_provider_x509_cert_url : JsonValue := .str defaultAuthProviderCertUrl
  client_x509_cert_url : JsonValue := .str defaultClientCertUrl

/-- The parameter names of the `FirebaseConfig` dataclass constructor. -/
def firebaseFieldNames : List String :=
  ["project_id", "private_key_id", "private_key", "client_email", "client_id",
   "auth_uri", "token_uri", "auth_provider_x509_cert_url", "client_x509_cert_url"]

/-- The five parameters of `FirebaseConfig` without a default value. -/
def firebaseRequiredNames : List String :=
  ["project_id", "private_key_id", "private_key", "client_email", "client_id"]

/-- The record built by a successful `FirebaseConfig(**fields)` call: each
required field takes its binding (present by the keyword check), each
endpoint field takes its binding when supplied and its declared default
otherwise. -/
def firebaseFromFields (fields : List (String × JsonValue)) : FirebaseConfig :=
  { project_id := (jLookup fields "project_id").getD .null
    private_key_id := (jLookup fields "private_key_id").getD .null
    private_key := (jLookup fields "private_key").getD .null
    client_email := (jLookup fields "client_email").getD .null
    client_id := (jLookup fields "client_id").getD .null
    auth_uri := (jLookup fields "auth_uri").getD (.str defaultAuthUri)
    token_uri := (jLookup fields "token_uri").getD (.str defaultTokenUri)
    auth_provider_x509_cert_url :=
      (jLookup fields "auth_provider_x509_cert_url").getD (.str defaultAuthProviderCertUrl)
    client_x509_cert_url :=
      (jLookup fields "client_x509_cert_url").getD (.str defaultClientCertUrl) }

/-- `FirebaseConfig(**fields)`: keyword expansion of the decoded JSON object.
Raises `TypeError` when some key is not a constructor parameter name
(unexpected keyword argument) or some required parameter has no binding
(missing argument); otherwise builds the record, supplied endpoint keys
overriding the four URL defaults. No value validation happens. -/
def mkFirebaseConfig (fields : List (String × JsonValue)) : Except PyExc FirebaseConfig :=
  if (∀ k ∈ fields.map Prod.fst, k ∈ firebaseFieldNames) ∧
     (∀ k ∈ firebaseRequiredNames, k ∈ fields.map Prod.fst) then
    .ok (firebaseFromFields fields)
  else
    .error .typeError

/-- The `DataConfig` dataclass (source lines 28-34) with its literal defaults.
`ccxt_exchanges: list = None` is an optional list defaulting to Python
`None`. -/
structure DataConfig where
  ccxt_exchanges : Option (List String) := none
  data_freshness_minutes : Int := 5
  historical_days : Int := 365
  max_symbols_per_exchange : Int := 50
deriving DecidableEq, Repr

/-- The `ModelConfig` dataclass (source lines 36-43) with its literal
defaults. -/
structure ModelConfig where
  max_model_complexity : Int := 10
  min_backtest_period_days : Int := 30
  required_sharpe_ratio : Rat := 1
  max_drawdown_percent : Rat := 20
  genetic_population_size : Int := 50
deriving DecidableEq, Repr

/-- The `Config` aggregate: optional Firebase credentials plus the two
defaulted sub-configs. -/
structure Config where
  firebase : Option FirebaseConfig
  data : DataConfig
  model : ModelConfig

/-- The body of the `try` block in `Config._load_firebase_config`
(source lines 56-62), with raised exceptions modelled as `Except.error`:
read the variable; on unset or empty (falsy) warn and leave the credential
absent; otherwise `json.loads` (raising `JSONDecodeError` on failure) and
`FirebaseConfig(**config_dict)` (keyword expansion raises `TypeError` on a
non-mapping value or on key mismatch). -/
def tryLoadFirebase (env : Option String) (parse : String → Except Unit JsonValue) :
    Except PyExc (Option FirebaseConfig × List LogMsg) :=
  match env with
  | none => .ok (none, [.warnNotFound])
  | some s =>
    if s = "" then .ok (none, [.warnNotFound])
    else
      match parse s with
      | .error _ => .error .jsonDecodeError
      | .ok (.obj fields) => (mkFirebaseConfig fields).map (fun fc => (some fc, []))
      | .ok _ => .error .typeError

/-- `Config.__init__` / `load()` (source lines 48-66): set the defaulted
sub-configs, run `_load_firebase_config` with its two handlers
(`except json.JSONDecodeError` logging a parse error, `except Exception`
logging a load error, both leaving `firebase` as `None`). The result type is
`Except PyExc` because an exception not caught by a handler would escape
`load()`; totality of the handlers is what the theorems establish. -/
def Config.load (env : Option String) (parse : String → Except Unit JsonValue) :
    Except PyExc (Config × List LogMsg) :=
  match tryLoadFirebase env parse with
  | .ok (fb, logs) => .ok ({ firebase := fb, data := {}, model := {} }, logs)
  | .error .jsonDecodeError => .ok ({ firebase := none, data := {}, model := {} }, [.errorParse])
  | .error _ => .ok ({ firebase := none, data := {}, model := {} }, [.errorLoad])

/-- `asdict` on a loaded `FirebaseConfig`: all nine fields in declaration
order. -/
def FirebaseConfig.asdict (fc : FirebaseConfig) : List (String × JsonValue) :=
  [("project_id", fc.project_id),
   ("private_key_id", fc.private_key_id),
   ("private_key", fc.private_key),
   ("client_email", fc.client_email),
   ("client_id", fc.client_id),
   ("auth_uri", fc.auth_uri),
   ("token_uri", fc.token_uri),
   ("auth_provider_x509_cert_url", fc.auth_provider_x509_cert_url),
   ("client_x509_cert_url", fc.client_x509_cert_url)]

/-- Render the optional exchange list as the JSON value `asdict` produces for
it (`None` becomes `null`, a list becomes a JSON array of strings). -/
def optStrListToJson : Option (List String) → JsonValue
  | none => .null
  | some xs => .arr (xs.map JsonValue.str)

/-- `asdict` on `DataConfig`: its four fields in declaration order. -/
def DataConfig.asdict (d : DataConfig) : List (String × JsonValue) :=
  [("ccxt_exchanges", optStrListToJson d.ccxt_exchanges),
   ("data_freshness_minutes", .num (d.data_freshness_minutes : Rat)),
   ("historical_days", .num (d.historical_days : Rat)),
   ("max_symbols_per_exchange", .num (d.max_symbols_per_exchange : Rat))]

/-- `asdict` on `ModelConfig`: its five fields in declaration order. -/
def ModelConfig.asdict (m : ModelConfig) : List (String × JsonValue) :=
  [("max_model_complexity", .num (m.max_model_complexity : Rat)),
   ("min_backtest_period_days", .num (m.min_backtest_period_days : Rat)),
   ("required_sharpe_ratio", .num m.required_sharpe_ratio),
   ("max_drawdown_percent", .num m.max_drawdown_percent),
   ("genetic_population_size", .num (m.genetic_population_size : Rat))]

/-- `Config.to_dict` (source lines 68-74): the three-key mapping, rendering
the credential sub-config as `null` when absent. -/
def Config.to_dict (c : Config) : List (String × JsonValue) :=
  [("firebase", match c.firebase with
      | some fc => .obj fc.asdict
      | none => .null),
   ("data", .obj c.data.asdict),
   ("model", .obj c.model.asdict)]

/-- The default-valued `DataConfig`, as `DataConfig()` builds it. -/
def defaultDataConfig : DataConfig :=
  { ccxt_exchanges := none, data_freshness_minutes := 5, historical_days := 365,
    max_symbols_per_exchange := 50 }

/-- The default-valued `ModelConfig`, as `ModelConfig()` builds it. -/
def defaultModelConfig : ModelConfig :=
  { max_model_complexity := 10, min_backtest_period_days := 30,
    required_sharpe_ratio := 1, max_drawdown_percent := 20,
    genetic_population_size := 50 }

/-- C2: for every value of the credential environment variable -- unset,
empty, malformed, or well-formed under any behaviour of the JSON decoder --
`load()` completes normally: it returns a `Configuration` and no exception
(`Except.error`) crosses the `load()` boundary, because the two handlers
together absorb every exception the `try` block can raise. -/
theorem c2_load_total (env : Option String) (parse : String → Except Unit JsonValue) :
    ∃ c logs, Config.load env parse = .ok (c, logs) := by
  unfold Config.load
  cases htry : tryLoadFirebase env parse with
  | ok r => obtain ⟨fb, lg⟩ := r; exact ⟨_, _, rfl⟩
  | error e => cases e <;> exact ⟨_, _, rfl⟩

/-- C4: when the credential variable is unset (or set to the empty string,
which Python treats as falsy), `load()` returns a `Configuration` with the
credential sub-config absent, no exception propagates, and the only effect of
that branch is the single diagnostic warning observation. -/
theorem c4_unset_env_absent (env : Option String) (parse : String → Except Unit JsonValue)
    (h : env = none ∨ env = some "") :
    Config.load env parse =
      .ok ({ firebase := none, data := defaultDataConfig, model := defaultModelConfig },
        [.warnNotFound]) := by
  rcases h with h | h <;> subst h <;> rfl

/-- Witness for C4 at the concrete unset environment. -/
theorem c4_unset_env_absent_witness :
    Config.load none (fun _ => .error ()) =
      .ok ({ firebase := none, data := defaultDataConfig, model := defaultModelConfig },
        [.warnNotFound]) :=
  c4_unset_env_absent none (fun _ => .error ()) (Or.inl rfl)

/-- C5: when the credential variable holds a non-empty string that the JSON
decoder rejects, `load()` returns a `Configuration` with the credential
sub-config absent and no exception propagates; the decode failure is absorbed
by the `except json.JSONDecodeError` handler, which logs a parse error. -/
theorem c5_invalid_json_absent (s : String) (parse : String → Except Unit JsonValue)
    (hs : s ≠ "") (hp : parse s = .error ()) :
    Config.load (some s) parse =
      .ok ({ firebase := none, data := defaultDataConfig, model := defaultModelConfig },
        [.errorParse]) := by
  have h1 : tryLoadFirebase (some s) parse = .error .jsonDecodeError := by
    simp only [tryLoadFirebase]
    rw [if_neg hs, hp]
  unfold Config.load
  rw [h1]
  rfl

/-- Witness for C5 at a concrete malformed blob. -/
theorem c5_invalid_json_absent_witness :
    Config.load (some "not json") (fun _ => .error ()) =
      .ok ({ firebase := none, data := defaultDataConfig, model := defaultModelConfig },
        [.errorParse]) :=
  c5_invalid_json_absent "not json" (fun _ => .error ()) (by decide) rfl

/-- C8: every `Configuration` returned by `load()` carries exactly the
documented defaults in its data-source and model-synthesis sub-configs:
exchange list unset, freshness 5 minutes, 365 historical days, 50 symbols per
exchange, complexity 10, backtest period 30 days, Sharpe ratio 1.0, drawdown
20.0 percent, population 50. -/
theorem c8_fixed_defaults (env : Option String) (parse : String → Except Unit JsonValue)
    (c : Config) (logs : List LogMsg) (h : Config.load env parse = .ok (c, logs)) :
    c.data = defaultDataConfig ∧ c.model = defaultModelConfig := by
  unfold Config.load at h
  cases htry : tryLoadFirebase env parse with
  | ok r =>
    obtain ⟨fb, lg⟩ := r
    rw [htry] at h
    simp only [Except.ok.injEq, Prod.mk.injEq] at h
    obtain ⟨hc, -⟩ := h
    subst hc
    exact ⟨rfl, rfl⟩
  | error e =>
    rw [htry] at h
    cases e <;>
      · simp only [Except.ok.injEq, Prod.mk.injEq] at h
        obtain ⟨hc, -⟩ := h
        subst hc
        exact ⟨rfl, rfl⟩

/-- Witness for C8 at a concrete loaded configuration. -/
theorem c8_fixed_defaults_witness :
    ∃ c logs, Config.load none (fun _ => .error ()) = .ok (c, logs) ∧
      c.data = defaultDataConfig ∧ c.model = defaultModelConfig :=
  ⟨{ firebase := none, data := defaultDataConfig, model := defaultModelConfig },
    [.warnNotFound], rfl,
    c8_fixed_defaults none (fun _ => .error ()) _ [.warnNotFound] rfl⟩

/-- C1: when the credential variable holds a blob that decodes to a JSON
object whose keys are all recognized constructor parameters, with the five
required credential fields bound to non-empty string values, `load()` returns
a `Configuration` whose credential sub-config is present and field-for-field
equal to the decoded input: each required field carries its decoded binding,
each of the four endpoint fields carries its decoded binding when one was
supplied and its default URL otherwise. -/
theorem c1_valid_blob_loaded (s : String) (parse : String → Except Unit JsonValue)
    (fields : List (String × JsonValue))
    (hs : s ≠ "") (hp : parse s = .ok (.obj fields))
    (hrec : ∀ k ∈ fields.map Prod.fst, k ∈ firebaseFieldNames)
    (hreq : ∀ k ∈ firebaseRequiredNames, k ∈ fields.map Prod.fst)
    (hne : ∀ k ∈ firebaseRequiredNames, ∃ t : String, t ≠ "" ∧ jLookup fields k = some (.str t)) :
    ∃ fc, Config.load (some s) parse =
        .ok ({ firebase := some fc, data := defaultDataConfig, model := defaultModelConfig },
          []) ∧
      jLookup fields "project_id" = some fc.project_id ∧
      jLookup fields "private_key_id" = some fc.private_key_id ∧
      jLookup fields "private_key" = some fc.private_key ∧
      jLookup fields "client_email" = some fc.client_email ∧
      jLookup fields "client_id" = some fc.client_id ∧
      fc.auth_uri = (jLookup fields "auth_uri").getD (.str defaultAuthUri) ∧
      fc.token_uri = (jLookup fields "token_uri").getD (.str defaultTokenUri) ∧
      fc.auth_provider_x509_cert_url =
        (jLookup fields "auth_provider_x509_cert_url").getD (.str defaultAuthProviderCertUrl) ∧
      fc.client_x509_cert_url =
        (jLookup fields "client_x509_cert_url").getD (.str defaultClientCertUrl) := by
  have hmk : mkFirebaseConfig fields = .ok (firebaseFromFields fields) := by
    unfold mkFirebaseConfig
    rw [if_pos ⟨hrec, hreq⟩]
  have h1 : tryLoadFirebase (some s) parse = .ok (some (firebaseFromFields fields), []) := by
    simp only [tryLoadFirebase]
    rw [if_neg hs, hp]
    show Except.map (fun fc => (some fc, [])) (mkFirebaseConfig fields) = _
    rw [hmk]
    rfl
  refine ⟨firebaseFromFields fields, ?_, ?_, ?_, ?_, ?_, ?_, rfl, rfl, rfl, rfl⟩
  · unfold Config.load
    rw [h1]
    rfl
  · obtain ⟨t, -, ht⟩ := hne "project_id" (by decide)
    rw [ht]; simp [firebaseFromFields, ht]
  · obtain ⟨t, -, ht⟩ := hne "private_key_id" (by decide)
    rw [ht]; simp [firebaseFromFields, ht]
  · obtain ⟨t, -, ht⟩ := hne "private_key" (by decide)
    rw [ht]; simp [firebaseFromFields, ht]
  · obtain ⟨t, -, ht⟩ := hne "client_email" (by decide)
    rw [ht]; simp [firebaseFromFields, ht]
  · obtain ⟨t, -, ht⟩ := hne "client_id" (by decide)
    rw [ht]; simp [firebaseFromFields, ht]

/-- The decoded credential object used to witness C1: all five required
fields non-empty, one endpoint key overriding its default. -/
def c1Fields : List (String × JsonValue) :=
  [("project_id", .str "proj"), ("private_key_id", .str "pkid"),
   ("private_key", .str "pk"), ("client_email", .str "a@b.c"),
   ("client_id", .str "cid"), ("auth_uri", .str "custom-auth-uri")]

/-- Witness for C1 at a concrete valid credential blob. -/
theorem c1_valid_blob_loaded_witness :
    ∃ fc, Config.load (some "blob") (fun _ => .ok (.obj c1Fields)) =
        .ok ({ firebase := some fc, data := defaultDataConfig, model := defaultModelConfig },
          []) ∧
      jLookup c1Fields "project_id" = some fc.project_id ∧
      jLookup c1Fields "private_key_id" = some fc.private_key_id ∧
      jLookup c1Fields "private_key" = some fc.private_key ∧
      jLookup c1Fields "client_email" = some fc.client_email ∧
      jLookup c1Fields "client_id" = some fc.client_id ∧
      fc.auth_uri = (jLookup c1Fields "auth_uri").getD (.str defaultAuthUri) ∧
      fc.token_uri = (jLookup c1Fields "token_uri").getD (.str defaultTokenUri) ∧
      fc.auth_provider_x509_cert_url =
        (jLookup c1Fields "auth_provider_x509_cert_url").getD (.str defaultAuthProviderCertUrl) ∧
      fc.client_x509_cert_url =
        (jLookup c1Fields "client_x509_cert_url").getD (.str defaultClientCertUrl) :=
  c1_valid_blob_loaded "blob" (fun _ => .ok (.obj c1Fields)) c1Fields
    (by decide) rfl (by decide) (by decide)
    (by
      intro k hk
      fin_cases hk
      · exact ⟨"proj", by decide, rfl⟩
      · exact ⟨"pkid", by decide, rfl⟩
      · exact ⟨"pk", by decide, rfl⟩
      · exact ⟨"a@b.c", by decide, rfl⟩
      · exact ⟨"cid", by decide, rfl⟩)

/-- C6: when the blob decodes to a JSON object missing at least one required
credential field, dataclass construction fails (a missing-argument
`TypeError`), that failure is contained by the broad handler, and `load()`
returns a `Configuration` with the credential sub-config absent. -/
theorem c6_missing_required_absent (s : String) (parse : String → Except Unit JsonValue)
    (fields : List (String × JsonValue)) (k : String)
    (hs : s ≠ "") (hp : parse s = .ok (.obj fields))
    (hk : k ∈ firebaseRequiredNames) (hmiss : k ∉ fields.map Prod.fst) :
    Config.load (some s) parse =
      .ok ({ firebase := none, data := defaultDataConfig, model := defaultModelConfig },
        [.errorLoad]) := by
  have hmk : mkFirebaseConfig fields = .error .typeError := by
    unfold mkFirebaseConfig
    rw [if_neg]
    rintro ⟨-, h2⟩
    exact hmiss (h2 k hk)
  have h1 : tryLoadFirebase (some s) parse = .error .typeError := by
    simp only [tryLoadFirebase]
    rw [if_neg hs, hp]
    show Except.map (fun fc => (some fc, [])) (mkFirebaseConfig fields) = _
    rw [hmk]
    rfl
  unfold Config.load
  rw [h1]
  rfl

/-- Witness for C6: a blob with every required field except `client_email`. -/
theorem c6_missing_required_absent_witness :
    Config.load (some "blob")
        (fun _ => .ok (.obj
          [("project_id", .str "proj"), ("private_key_id", .str "pkid"),
           ("private_key", .str "pk"), ("client_id", .str "cid")])) =
      .ok ({ firebase := none, data := defaultDataConfig, model := defaultModelConfig },
        [.errorLoad]) :=
  c6_missing_required_absent "blob" _ _ "client_email" (by decide) rfl (by decide) (by decide)

/-- C7: when the blob decodes to a JSON object carrying all five required
fields plus at least one key that is not a constructor parameter, keyword
expansion rejects it (an unexpected-keyword `TypeError`, i.e. strict field
matching), the failure is contained, and `load()` returns a `Configuration`
with the credential sub-config absent. -/
theorem c7_unrecognized_key_absent (s : String) (parse : String → Except Unit JsonValue)
    (fields : List (String × JsonValue)) (k : String)
    (hs : s ≠ "") (hp : parse s = .ok (.obj fields))
    (_hreq : ∀ r ∈ firebaseRequiredNames, r ∈ fields.map Prod.fst)
    (hk : k ∈ fields.map Prod.fst) (hbad : k ∉ firebaseFieldNames) :
    Config.load (some s) parse =
      .ok ({ firebase := none, data := defaultDataConfig, model := defaultModelConfig },
        [.errorLoad]) := by
  have hmk : mkFirebaseConfig fields = .error .typeError := by
    unfold mkFirebaseConfig
    rw [if_neg]
    rintro ⟨h1, -⟩
    exact hbad (h1 k hk)
  have h1 : tryLoadFirebase (some s) parse = .error .typeError := by
    simp only [tryLoadFirebase]
    rw [if_neg hs, hp]
    show Except.map (fun fc => (some fc, [])) (mkFirebaseConfig fields) = _
    rw [hmk]
    rfl
  unfold Config.load
  rw [h1]
  rfl

/-- Witness for C7: all five required fields plus an unrecognized key. -/
theorem c7_unrecognized_key_absent_witness :
    Config.load (some "blob")
        (fun _ => .ok (.obj
          [("project_id", .str "proj"), ("private_key_id", .str "pkid"),
           ("private_key", .str "pk"), ("client_email", .str "a@b.c"),
           ("client_id", .str "cid"), ("extra_key", .str "x")])) =
      .ok ({ firebase := none, data := defaultDataConfig, model := defaultModelConfig },
        [.errorLoad]) :=
  c7_unrecognized_key_absent "blob" _ _ "extra_key" (by decide) rfl (by decide) (by decide)
    (by decide)

/-- C10: when the blob decodes to a JSON value that is not an object (array,
string, number, boolean, or null), keyword expansion of a non-mapping raises
`TypeError`, the broad handler contains it, and `load()` returns a
`Configuration` with the credential sub-config absent. -/
theorem c10_non_object_absent (s : String) (parse : String → Except Unit JsonValue)
    (v : JsonValue) (hs : s ≠ "") (hp : parse s = .ok v)
    (hv : ∀ fields, v ≠ JsonValue.obj fields) :
    Config.load (some s) parse =
      .ok ({ firebase := none, data := defaultDataConfig, model := defaultModelConfig },
        [.errorLoad]) := by
  have h1 : tryLoadFirebase (some s) parse = .error .typeError := by
    simp only [tryLoadFirebase]
    rw [if_neg hs, hp]
    cases v with
    | obj fields => exact absurd rfl (hv fields)
    | _ => rfl
  unfold Config.load
  rw [h1]
  rfl

/-- Witness for C10: the blob decodes to a JSON array. -/
theorem c10_non_object_absent_witness :
    Config.load (some "blob") (fun _ => .ok (.arr [.num 1])) =
      .ok ({ firebase := none, data := defaultDataConfig, model := defaultModelConfig },
        [.errorLoad]) :=
  c10_non_object_absent "blob" _ (.arr [.num 1]) (by decide) rfl (by intro fields h; cases h)

/-- Two successful reads of the same `load()` result agree componentwise. -/
lemma loadEqInv {env : Option String} {parse : String → Except Unit JsonValue}
    {c c2 : Config} {logs logs2 : List LogMsg}
    (h1 : Config.load env parse = .ok (c, logs))
    (h2 : Config.load env parse = .ok (c2, logs2)) : c = c2 ∧ logs = logs2 := by
  rw [h1] at h2
  simpa using h2

/-- The decoded credential object refuting C3: all five required fields
present, but `project_id` bound to the empty string. -/
def c3Fields : List (String × JsonValue) :=
  [("project_id", .str ""), ("private_key_id", .str "pkid"),
   ("private_key", .str "pk"), ("client_email", .str "a@b.c"),
   ("client_id", .str "cid")]

/-- Counterexample to C3 as stated: the dataclass performs no value
validation, so a blob whose `project_id` is the empty string still yields a
present credential sub-config whose `project_id` field is the empty string --
contradicting the claim that a present record has all five fields
non-empty. -/
theorem c3_counterexample_empty_value_accepted :
    Config.load (some "blob") (fun _ => .ok (.obj c3Fields)) =
      .ok ({ firebase := some (firebaseFromFields c3Fields),
             data := defaultDataConfig, model := defaultModelConfig }, []) ∧
    (firebaseFromFields c3Fields).project_id = .str "" :=
  ⟨rfl, rfl⟩

/-- C3 amended: when the credential sub-config of a loaded `Configuration`
is present, the decoded blob was a JSON object that supplied bindings for all
five required fields (and only recognized keys), and the record equals the
one built from those bindings -- it is never partially populated. The loader
does not, however, validate the bound values: they need not be non-empty
strings. -/
theorem c3_present_implies_fully_supplied (env : Option String)
    (parse : String → Except Unit JsonValue) (c : Config) (logs : List LogMsg)
    (fc : FirebaseConfig)
    (hload : Config.load env parse = .ok (c, logs)) (hfb : c.firebase = some fc) :
    ∃ s fields, env = some s ∧ s ≠ "" ∧ parse s = .ok (.obj fields) ∧
      (∀ k ∈ fields.map Prod.fst, k ∈ firebaseFieldNames) ∧
      (∀ k ∈ firebaseRequiredNames, k ∈ fields.map Prod.fst) ∧
      fc = firebaseFromFields fields := by
  cases env with
  | none =>
    obtain ⟨hc, -⟩ := loadEqInv hload
      (show Config.load none parse =
        .ok ({ firebase := none, data := defaultDataConfig, model := defaultModelConfig },
          [.warnNotFound]) from rfl)
    subst hc
    simp at hfb
  | some s =>
    by_cases hse : s = ""
    · subst hse
      obtain ⟨hc, -⟩ := loadEqInv hload
        (show Config.load (some "") parse =
          .ok ({ firebase := none, data := defaultDataConfig, model := defaultModelConfig },
            [.warnNotFound]) from rfl)
      subst hc
      simp at hfb
    · cases hps : parse s with
      | error e =>
        have h1 : tryLoadFirebase (some s) parse = .error .jsonDecodeError := by
          simp only [tryLoadFirebase]
          rw [if_neg hse, hps]
        have hcomp : Config.load (some s) parse =
            .ok ({ firebase := none, data := defaultDataConfig, model := defaultModelConfig },
              [.errorParse]) := by
          unfold Config.load
          rw [h1]
          rfl
        obtain ⟨hc, -⟩ := loadEqInv hload hcomp
        subst hc
        simp at hfb
      | ok v =>
        cases v with
        | obj fields =>
          by_cases hcond : (∀ k ∈ fields.map Prod.fst, k ∈ firebaseFieldNames) ∧
              (∀ k ∈ firebaseRequiredNames, k ∈ fields.map Prod.fst)
          · have h1 : tryLoadFirebase (some s) parse =
                .ok (some (firebaseFromFields fields), []) := by
              simp only [tryLoadFirebase]
              rw [if_neg hse, hps]
              show Except.map (fun fc => (some fc, [])) (mkFirebaseConfig fields) = _
              unfold mkFirebaseConfig
              rw [if_pos hcond]
              rfl
            have hcomp : Config.load (some s) parse =
                .ok ({ firebase := some (firebaseFromFields fields),
                       data := defaultDataConfig, model := defaultModelConfig }, []) := by
              unfold Config.load
              rw [h1]
              rfl
            obtain ⟨hc, -⟩ := loadEqInv hload hcomp
            subst hc
            simp only [Option.some.injEq] at hfb
            exact ⟨s, fields, rfl, hse, hps, hcond.1, hcond.2, hfb.symm⟩
          · have h1 : tryLoadFirebase (some s) parse = .error .typeError := by
              simp only [tryLoadFirebase]
              rw [if_neg hse, hps]
              show Except.map (fun fc => (some fc, [])) (mkFirebaseConfig fields) = _
              unfold mkFirebaseConfig
              rw [if_neg hcond]
              rfl
            have hcomp : Config.load (some s) parse =
                .ok ({ firebase := none, data := defaultDataConfig, model := defaultModelConfig },
                  [.errorLoad]) := by
              unfold Config.load
              rw [h1]
              rfl
            obtain ⟨hc, -⟩ := loadEqInv hload hcomp
            subst hc
            simp at hfb
        | _ =>
          have h1 : tryLoadFirebase (some s) parse = .error .typeError := by
            simp only [tryLoadFirebase]
            rw [if_neg hse, hps]
          have hcomp : Config.load (some s) parse =
              .ok ({ firebase := none, data := defaultDataConfig, model := defaultModelConfig },
                [.errorLoad]) := by
            unfold Config.load
            rw [h1]
            rfl
          obtain ⟨hc, -⟩ := loadEqInv hload hcomp
          subst hc
          simp at hfb

/-- Witness for the amended C3 at a concrete blob with all five required
fields supplied. -/
theorem c3_present_implies_fully_supplied_witness :
    ∃ s fields, (some "blob" : Option String) = some s ∧ s ≠ "" ∧
      (fun _ : String => (Except.ok (JsonValue.obj c3Fields) : Except Unit JsonValue)) s =
        .ok (.obj fields) ∧
      (∀ k ∈ fields.map Prod.fst, k ∈ firebaseFieldNames) ∧
      (∀ k ∈ firebaseRequiredNames, k ∈ fields.map Prod.fst) ∧
      firebaseFromFields c3Fields = firebaseFromFields fields :=
  c3_present_implies_fully_supplied (some "blob")
    (fun _ => .ok (.obj c3Fields))
    { firebase := some (firebaseFromFields c3Fields),
      data := defaultDataConfig, model := defaultModelConfig }
    [] (firebaseFromFields c3Fields) rfl rfl

/-- The constructor `JsonValue.str` is injective. -/
lemma jsonStr_injective : Function.Injective JsonValue.str := by
  intro a b h
  injection h

/-- Rendering the optional exchange list into JSON loses no information. -/
lemma optStrListToJson_injective : Function.Injective optStrListToJson := by
  intro a b h
  cases a with
  | none =>
    cases b with
    | none => rfl
    | some ys => exact JsonValue.noConfusion h
  | some xs =>
    cases b with
    | none => exact JsonValue.noConfusion h
    | some ys =>
      injection h with h2
      exact congrArg some (List.map_injective_iff.mpr jsonStr_injective h2)

/-- C9: `to_dict` produces the documented nested mapping and nothing else:
its top-level keys are exactly `firebase`, `data`, `model`; the sub-dicts
carry exactly the declared field names; the credential sub-config renders as
`null` when absent and as its full nine-field dict when present; the view is
lossless (two configurations with the same dictionary are equal, so every
populated field round-trips); and, being a pure function, calling it twice on
the same aggregate yields identical output. -/
theorem c9_to_dict_roundtrip (c : Config) :
    (Config.to_dict c).map Prod.fst = ["firebase", "data", "model"] ∧
    (DataConfig.asdict c.data).map Prod.fst =
      ["ccxt_exchanges", "data_freshness_minutes", "historical_days",
       "max_symbols_per_exchange"] ∧
    (ModelConfig.asdict c.model).map Prod.fst =
      ["max_model_complexity", "min_backtest_period_days", "required_sharpe_ratio",
       "max_drawdown_percent", "genetic_population_size"] ∧
    (c.firebase = none → jLookup (Config.to_dict c) "firebase" = some .null) ∧
    (∀ fc, c.firebase = some fc →
      jLookup (Config.to_dict c) "firebase" = some (.obj (FirebaseConfig.asdict fc)) ∧
      (FirebaseConfig.asdict fc).map Prod.fst = firebaseFieldNames) ∧
    Config.to_dict c = Config.to_dict c ∧
    (∀ c2 : Config, Config.to_dict c = Config.to_dict c2 → c = c2) := by
  obtain ⟨fb, d, m⟩ := c
  refine ⟨rfl, rfl, rfl, ?_, ?_, rfl, ?_⟩
  · intro h
    subst h
    rfl
  · intro fc h
    subst h
    exact ⟨rfl, rfl⟩
  · intro c2 h
    obtain ⟨fb2, d2, m2⟩ := c2
    obtain ⟨e1, f1, g1, s1⟩ := d
    obtain ⟨e2, f2, g2, s2⟩ := d2
    obtain ⟨a1, b1, r1, w1, p1⟩ := m
    obtain ⟨a2, b2, r2, w2, p2⟩ := m2
    simp only [Config.to_dict, DataConfig.asdict, ModelConfig.asdict,
      List.cons.injEq, Prod.mk.injEq, JsonValue.obj.injEq, JsonValue.num.injEq,
      and_true, true_and] at h
    obtain ⟨hfb, ⟨he, hf, hg, hs⟩, ha, hb, hr, hw, hp⟩ := h
    have hfbe : fb = fb2 := by
      cases fb with
      | none =>
        cases fb2 with
        | none => rfl
        | some fc2 => exact JsonValue.noConfusion hfb
      | some fc =>
        cases fb2 with
        | none => exact JsonValue.noConfusion hfb
        | some fc2 =>
          obtain ⟨q1, q2, q3, q4, q5, q6, q7, q8, q9⟩ := fc
          obtain ⟨u1, u2, u3, u4, u5, u6, u7, u8, u9⟩ := fc2
          simp only [FirebaseConfig.asdict, JsonValue.obj.injEq, List.cons.injEq,
            Prod.mk.injEq, and_true, true_and] at hfb
          obtain ⟨v1, v2, v3, v4, v5, v6, v7, v8, v9⟩ := hfb
          subst v1 v2 v3 v4 v5 v6 v7 v8 v9
          rfl
    simp only [Config.mk.injEq, DataConfig.mk.injEq, ModelConfig.mk.injEq]
    exact ⟨hfbe,
      ⟨optStrListToJson_injective he, Int.cast_injective hf, Int.cast_injective hg,
        Int.cast_injective hs⟩,
      ⟨Int.cast_injective ha, Int.cast_injective hb, hr, hw, Int.cast_injective hp⟩⟩

/-- A sample loaded credential record used to witness C9. -/
def c9SampleFirebase : FirebaseConfig :=
  { project_id := .str "proj", private_key_id := .str "pkid",
    private_key := .str "pk", client_email := .str "a@b.c",
    client_id := .str "cid" }

/-- Witness for C9, discharging each hypothesis-bearing conjunct at concrete
configurations: the absent-credential rendering, the present-credential
rendering, and losslessness. -/
theorem c9_to_dict_roundtrip_witness :
    jLookup
        (Config.to_dict
          { firebase := none, data := defaultDataConfig, model := defaultModelConfig })
        "firebase" = some .null ∧
    jLookup
        (Config.to_dict
          { firebase := some c9SampleFirebase, data := defaultDataConfig,
            model := defaultModelConfig })
        "firebase" = some (.obj (FirebaseConfig.asdict c9SampleFirebase)) ∧
    ({ firebase := none, data := defaultDataConfig, model := defaultModelConfig } : Config) =
      { firebase := none, data := defaultDataConfig, model := defaultModelConfig } :=
  ⟨(c9_to_dict_roundtrip _).2.2.2.1 rfl,
   ((c9_to_dict_roundtrip _).2.2.2.2.1 c9SampleFirebase rfl).1,
   (c9_to_dict_roundtrip _).2.2.2.2.2.2 _ rfl⟩

end AMSE
